import Mathlib

/-!
Shallow embedding of the damages-calculation and red-line-interception core
of the MCP-Legal-China repository (src/Logic.py and src/contract_logic.py),
together with theorems checking the specification's claims about it.

Python floats are modelled as exact rationals (ℚ); Python dictionaries
returned by the calculation functions are modelled as Lean structures whose
fields mirror the dictionary keys.  Log output and string formatting of
numbers into messages are elided (no claim concerns them); messages are
kept as the fixed parts of the source strings.
-/

namespace MCPLegal

/-- Risk levels, from the `RiskLevel` enum in src/Logic.py. -/
inductive RiskLevel
  | low
  | medium
  | high
  | critical
deriving DecidableEq

/-- The `.value` string of each enum member (src/Logic.py lines 24-28). -/
def RiskLevel.value : RiskLevel → String
  | .low => "Low"
  | .medium => "Medium"
  | .high => "High"
  | .critical => "Critical"

/-- Structured `details` payloads attached to `InvalidParamsError` in
src/Logic.py: the red-line violation dict (risk_level, legal_basis, limit,
provided) and the labor-check dict carrying only `total_months`. -/
inductive ErrorDetails
  | redline (risk_level : String) (legal_basis : String) (limit : ℚ) (provided : ℚ)
  | totalMonths (total_months : ℤ)
deriving DecidableEq

/-- The exception classes of src/errors.py that the modelled core raises:
`InvalidParamsError` (code -32602) and `InternalError` (code -32001).
`InternalError` is raised in the core without a details dict. -/
inductive AppError
  | invalidParams (message : String) (details : ErrorDetails)
  | internalError (message : String)
deriving DecidableEq

/-- `DiscretionaryWeight` dataclass (src/Logic.py lines 30-39). -/
structure DiscretionaryWeight where
  performance_ratio : ℚ
  fault_score : ℚ
  expectation_interest_included : Bool
  is_consumer_contract : Bool
deriving DecidableEq

/-- The fixed 1-year LPR reference value returned by `get_latest_lpr`
when no failure is simulated (src/Logic.py line 69). -/
def benchmark_lpr : ℚ := 0.0345

/-- `RedLineInterceptors.get_latest_lpr` (src/Logic.py lines 47-69):
raises `InternalError` when `simulate_db_failure` is true, otherwise
returns the reference rate 0.0345. -/
def get_latest_lpr (simulate_db_failure : Bool) : Except AppError ℚ :=
  if simulate_db_failure then
    .error (.internalError "法律数据库同步失败，已切换至备用静态数据源")
  else
    .ok benchmark_lpr

/-- Success payload of the private-lending check
(src/Logic.py lines 102-107). -/
structure LendingCheckResult where
  triggered : Bool
  risk_level : String
  message : String
  capped_value : ℚ
deriving DecidableEq

/-- `RedLineInterceptors.check_private_lending_interest`
(src/Logic.py lines 71-107).  The `except InternalError as e: raise e`
block re-raises the provider failure unchanged, which the `Except` match
mirrors.  The formatted percentages of the rejection message are elided;
the numeric data lives in the structured details, as in the source. -/
def check_private_lending_interest (rate : ℚ) (simulate_db_failure : Bool) :
    Except AppError LendingCheckResult :=
  match get_latest_lpr simulate_db_failure with
  | .error e => .error e
  | .ok lpr =>
    let limit := lpr * 4
    if rate > limit then
      .error (.invalidParams "约定利率超过法律保护上限"
        (.redline RiskLevel.critical.value
          "《最高人民法院关于审理民间借贷案件适用法律若干问题的规定》" limit rate))
    else
      .ok { triggered := false
            risk_level := RiskLevel.low.value
            message := "利率在法律保护范围内。"
            capped_value := rate }

/-- `RedLineInterceptors.check_labor_contract_limit`
(src/Logic.py lines 109-124). -/
def check_labor_contract_limit (training_cost : ℚ) (total_months : ℤ)
    (remaining_months : ℤ) : Except AppError ℚ :=
  if total_months ≤ 0 then
    .error (.invalidParams "服务期总月数必须大于0" (.totalMonths total_months))
  else
    .ok (training_cost / (total_months : ℚ) * (remaining_months : ℚ))

/-- One entry of a result's `adjustments` list.  The labor entry has no
`type` key (modelled as `none`); the consumer-protection entry has
`type = "consumer_protection"`. -/
structure Adjustment where
  type : Option String
  message : String
  legal_basis : String
deriving DecidableEq

/-- The `gamma_calculation` breakdown dict
(src/Logic.py lines 211-215). -/
structure GammaCalc where
  w1 : ℚ
  w2 : ℚ
  gamma : ℚ
deriving DecidableEq

/-- The result dict of `calculate_liquidated_damages`
(src/Logic.py lines 148-153 plus the keys added along each branch).
Keys absent on some branches (`base_loss_L`, `gamma_calculation`) are
modelled as `Option` fields. -/
structure CalcResult where
  scenario : String
  adjustments : List Adjustment
  final_suggestion : ℚ
  causal_trace_id : Option String
  base_loss_L : Option ℚ
  gamma_calculation : Option GammaCalc
deriving DecidableEq

/-- The keyword arguments `calculate_liquidated_damages` reads from
`**kwargs`, with the defaults the source passes to `kwargs.get`
(src/Logic.py lines 155, 160, 171-173). -/
structure Kwargs where
  rate : ℚ := 0
  training_cost : ℚ := 0
  total_months : ℤ := 12
  remaining_months : ℤ := 0
  simulate_db_failure : Bool := false
deriving DecidableEq

/-- The adjustment appended on the labor-contract branch
(src/Logic.py lines 181-184); the formatted limit inside the message is
elided. -/
def labor_adjustment : Adjustment :=
  { type := none
    message := "劳动合同违约金上限为服务期尚未履行部分所应分摊的培训费用。"
    legal_basis := "《中华人民共和国劳动合同法》第二十二条" }

/-- The consumer-protection adjustment appended when
`is_consumer_contract` is set (src/Logic.py lines 218-223). -/
def consumer_adjustment : Adjustment :=
  { type := some "consumer_protection"
    message := "消费者合同，建议法院在裁量时更加倾向于保护消费者权益，严格审查格式条款。"
    legal_basis := "《消费者权益保护法》" }

/-- The general/commercial-contract branch of `calculate_liquidated_damages`
(src/Logic.py lines 188-230): floor the base loss at zero, compute
`gamma = 0.3 * w1 * w2` with `w1` clamped below at zero when a weight is
supplied, append the consumer annotation when flagged, and return
`L * (1 + gamma)`. -/
def general_contract_branch (actual_loss expectation_loss mitigation_benefit : ℚ)
    (discretionary_weight : Option DiscretionaryWeight) (base : CalcResult) :
    CalcResult :=
  let L0 := actual_loss + expectation_loss - mitigation_benefit
  let L := if L0 < 0 then 0 else L0
  match discretionary_weight with
  | none =>
    { base with base_loss_L := some L, final_suggestion := L * (1 + 0) }
  | some w =>
    let w1a := 1 - w.performance_ratio
    let w1 := if w1a < 0 then 0 else w1a
    let w2 := w.fault_score
    let gamma := 0.3 * w1 * w2
    let adjs := if w.is_consumer_contract
      then base.adjustments ++ [consumer_adjustment] else base.adjustments
    { base with
      base_loss_L := some L
      gamma_calculation := some { w1 := w1, w2 := w2, gamma := gamma }
      adjustments := adjs
      final_suggestion := L * (1 + gamma) }

/-- `calculate_liquidated_damages` (src/Logic.py lines 126-230): scenario
dispatch over private lending, labor contract, and the general branch.
Exceptions raised by the interceptors propagate unchanged. -/
def calculate_liquidated_damages (actual_loss expectation_loss mitigation_benefit : ℚ)
    (discretionary_weight : Option DiscretionaryWeight) (scenario : String)
    (causal_trace_id : Option String) (kw : Kwargs) :
    Except AppError CalcResult :=
  let base : CalcResult :=
    { scenario := scenario
      adjustments := []
      final_suggestion := 0
      causal_trace_id := causal_trace_id
      base_loss_L := none
      gamma_calculation := none }
  if scenario = "private_lending" then
    match check_private_lending_interest kw.rate kw.simulate_db_failure with
    | .error e => .error e
    | .ok _check => .ok { base with final_suggestion := kw.rate }
  else if scenario = "labor_contract" then
    match check_labor_contract_limit kw.training_cost kw.total_months
        kw.remaining_months with
    | .error e => .error e
    | .ok limit =>
      .ok { base with
            adjustments := [labor_adjustment]
            final_suggestion := limit }
  else
    .ok (general_contract_branch actual_loss expectation_loss mitigation_benefit
      discretionary_weight base)

/-- Specification-side adjustment coefficient, written from the spec's
words (section 4.3 and the general-branch row of 4.4): `gamma = 0.3 *
max(0, 1 - performance_ratio) * fault_score` when a weight is supplied,
and 0 otherwise.  Used to compare the code's general branch against the
spec. -/
def spec_gamma : Option DiscretionaryWeight → ℚ
  | none => 0
  | some w => 0.3 * max 0 (1 - w.performance_ratio) * w.fault_score

/-!
Embedding of src/contract_logic.py: PID resolution and
`evaluate_judicial_discretion`, together with the slice of
src/legal_resources.py it consumes (`get_resource_by_pid`).
-/

/-- Python values flowing through the dynamically typed resolver:
numbers (int/float collapsed to ℚ), strings, dictionaries, and `None`.
These are the value shapes the resolver and `extract_value` inspect. -/
inductive PyVal
  | num (q : ℚ)
  | str (s : String)
  | dict (fields : List (String × PyVal))
  | pynone

/-- Python truthiness for the value shapes of `PyVal`
(`if resource:` in src/contract_logic.py line 341). -/
def pyTruthy : PyVal → Bool
  | .num q => q != 0
  | .str s => s != ""
  | .dict [] => false
  | .dict (_ :: _) => true
  | .pynone => false

/-- Character-level test that `s` starts with `p`, modelling Python's
`str.startswith`. -/
def strStarts (s p : String) : Bool := p.data.isPrefixOf s.data

/-- Drop the first `n` characters of `s`, modelling the Python slice
`s[n:]`. -/
def strDrop (s : String) (n : ℕ) : String := String.mk (s.data.drop n)

/-- The PID store of `LegalResourceProvider` (src/legal_resources.py):
`_pids` maps a handle to its record, of which only the `content` field is
read by `get_resource_by_pid`; the store is modelled as an association
list from handle to stored content. -/
structure LegalResourceProvider where
  pids : List (String × PyVal)

/-- Association-list lookup by key, modelling `self._pids.get(handle)`. -/
def lookupHandle : List (String × PyVal) → String → Option PyVal
  | [], _ => none
  | (k, v) :: rest, h => if k = h then some v else lookupHandle rest h

/-- `LegalResourceProvider.get_resource_by_pid`
(src/legal_resources.py lines 114-125): `None` (here `.pynone`) when the
URI lacks the `legal://pid/` scheme or the handle is absent, otherwise the
record's stored content.  `legal://pid/` is 12 characters long. -/
def get_resource_by_pid (provider : LegalResourceProvider) (pid_uri : String) :
    PyVal :=
  if strStarts pid_uri "legal://pid/" then
    match lookupHandle provider.pids (strDrop pid_uri 12) with
    | some content => content
    | none => .pynone
  else .pynone

/-- `resolve_pid_or_value` (src/contract_logic.py lines 333-349): strings
with the PID scheme are looked up — a truthy result is returned, anything
else degrades to `None` after a warning log; every other value passes
through unchanged. -/
def resolve_pid_or_value (provider : LegalResourceProvider) (value : PyVal) :
    PyVal :=
  match value with
  | .str s =>
    if strStarts s "legal://pid/" then
      let resource := get_resource_by_pid provider s
      if pyTruthy resource then resource else .pynone
    else .str s
  | v => v

/-- `resolved.get(key_name, 0.0)` coerced with `float(...)`
(src/contract_logic.py line 382); only numeric stored values occur on the
modelled paths, and a missing key yields the 0.0 default. -/
def dictGetNum (fields : List (String × PyVal)) (key : String) : ℚ :=
  match lookupHandle fields key with
  | some (.num q) => q
  | _ => 0

/-- The inner `extract_value` helper of `evaluate_judicial_discretion`
(src/contract_logic.py lines 379-385): returns the numeric value together
with the originating PID (kept only when the raw parameter was a
`legal://`-prefixed string and resolution produced a dict). -/
def extract_value (provider : LegalResourceProvider) (param : PyVal)
    (key_name : String) : ℚ × Option String :=
  match resolve_pid_or_value provider param with
  | .dict fields =>
    (dictGetNum fields key_name,
      match param with
      | .str s => if strStarts s "legal://" then some s else none
      | _ => none)
  | .num q => (q, none)
  | _ => (0, none)

/-- One `inputs` entry of the judicial-discretion report
(src/contract_logic.py lines 430-441). -/
structure InputRecord where
  value : ℚ
  source_pid : Option String
deriving DecidableEq

/-- The report returned by `evaluate_judicial_discretion`
(src/contract_logic.py lines 425-452).  The `evaluation_id` field is
identity-based (Python `id()`) and carries no semantic content, so it is
elided. -/
structure Report where
  contract_pid : Option String
  standards_reference : String
  loss : InputRecord
  performance : InputRecord
  fault : InputRecord
  formula_expression : String
  formula_components : Option GammaCalc
  suggested_penalty : ℚ
  base_loss : ℚ
  adjustments : List Adjustment
deriving DecidableEq

/-- The `DiscretionaryWeight` constructed by `evaluate_judicial_discretion`
(src/contract_logic.py lines 403-408): both boolean flags are fixed. -/
def judicial_weight (performance_value fault_value : ℚ) : DiscretionaryWeight :=
  { performance_ratio := performance_value
    fault_score := fault_value
    expectation_interest_included := true
    is_consumer_contract := false }

/-- `evaluate_judicial_discretion` (src/contract_logic.py lines 351-454):
resolve the three inputs, clamp performance into [0,1] and fault into
[1,2] with a warning log, build the weight, run the core calculation in
`judicial_evaluation` mode, and assemble the report. -/
def evaluate_judicial_discretion (loss_param performance_param fault_param : PyVal)
    (contract_pid : Option String) (provider : LegalResourceProvider) :
    Except AppError Report :=
  let lp := extract_value provider loss_param "amount"
  let pp := extract_value provider performance_param "ratio"
  let fp := extract_value provider fault_param "score"
  let loss_value := lp.1
  let performance_value :=
    if pp.1 < 0 ∨ pp.1 > 1 then max 0 (min 1 pp.1) else pp.1
  let fault_value :=
    if fp.1 < 1 ∨ fp.1 > 2 then max 1 (min 2 fp.1) else fp.1
  let dw := judicial_weight performance_value fault_value
  match calculate_liquidated_damages loss_value 0 0 (some dw)
      "judicial_evaluation" none {} with
  | .error e => .error e
  | .ok cr =>
    .ok { contract_pid := contract_pid
          standards_reference := "legal://judicial-discretion/standards"
          loss := { value := loss_value, source_pid := lp.2 }
          performance := { value := performance_value, source_pid := pp.2 }
          fault := { value := fault_value, source_pid := fp.2 }
          formula_expression :=
            "V_final = Loss * (1 + 0.3 * (1 - Performance) * Fault)"
          formula_components := cr.gamma_calculation
          suggested_penalty := cr.final_suggestion
          base_loss := cr.base_loss_L.getD 0
          adjustments := cr.adjustments }

/-!
Helper lemmas shared by the claim theorems: the source's defensive
`if`-clamps expressed through `max`/`min`.
-/

/-- The defensive floor `if x < 0 then 0 else x` is `max 0 x`. -/
lemma ite_neg_zero_eq_max (x : ℚ) : (if x < 0 then (0 : ℚ) else x) = max 0 x := by
  rcases lt_or_le x 0 with h | h
  · rw [if_pos h, max_eq_left h.le]
  · rw [if_neg (not_lt.2 h), max_eq_right h]

/-- The conditional clamp of the performance input is the unconditional
clamp into [0, 1]. -/
lemma ite_clamp01 (x : ℚ) :
    (if x < 0 ∨ x > 1 then max 0 (min 1 x) else x) = max 0 (min 1 x) := by
  by_cases h : x < 0 ∨ x > 1
  · rw [if_pos h]
  · rw [if_neg h]
    push_neg at h
    rw [min_eq_right h.2, max_eq_right h.1]

/-- The conditional clamp of the fault input is the unconditional clamp
into [1, 2]. -/
lemma ite_clamp12 (x : ℚ) :
    (if x < 1 ∨ x > 2 then max 1 (min 2 x) else x) = max 1 (min 2 x) := by
  by_cases h : x < 1 ∨ x > 2
  · rw [if_pos h]
  · rw [if_neg h]
    push_neg at h
    rw [min_eq_right h.2, max_eq_right h.1]

/-- The clamp into [0, 1] lands in [0, 1]. -/
lemma clamp01_bounds (x : ℚ) : 0 ≤ max 0 (min 1 x) ∧ max 0 (min 1 x) ≤ 1 :=
  ⟨le_max_left 0 _, max_le zero_le_one (min_le_left 1 x)⟩

/-- The clamp into [1, 2] lands in [1, 2]. -/
lemma clamp12_bounds (x : ℚ) : 1 ≤ max 1 (min 2 x) ∧ max 1 (min 2 x) ≤ 2 :=
  ⟨le_max_left 1 _, max_le one_le_two (min_le_left 2 x)⟩

/-- A value already clamped into [0, 1] leaves `1 - value` nonnegative, so
the general branch's defensive floor on `w1` is the identity there. -/
lemma w1_of_clamped (x : ℚ) :
    max 0 (1 - max 0 (min 1 x)) = 1 - max 0 (min 1 x) :=
  max_eq_right (by linarith [(clamp01_bounds x).2])

/-- A conditional on the boolean literal `false` collapses to its else
branch. -/
lemma ite_false_bool {α : Type} (a b : α) : (if false = true then a else b) = b := by
  simp

/-- Evaluation lemma: `evaluate_judicial_discretion` always returns a
report, with every field written out in terms of the resolved inputs.
The weight it builds is non-consumer, so the general branch appends no
adjustment, and both clamps land in their target intervals. -/
lemma evaluate_judicial_discretion_eq (l p f : PyVal) (c : Option String)
    (pr : LegalResourceProvider) :
    evaluate_judicial_discretion l p f c pr =
      .ok { contract_pid := c
            standards_reference := "legal://judicial-discretion/standards"
            loss := { value := (extract_value pr l "amount").1
                      source_pid := (extract_value pr l "amount").2 }
            performance := { value := max 0 (min 1 (extract_value pr p "ratio").1)
                             source_pid := (extract_value pr p "ratio").2 }
            fault := { value := max 1 (min 2 (extract_value pr f "score").1)
                       source_pid := (extract_value pr f "score").2 }
            formula_expression :=
              "V_final = Loss * (1 + 0.3 * (1 - Performance) * Fault)"
            formula_components := some
              { w1 := 1 - max 0 (min 1 (extract_value pr p "ratio").1)
                w2 := max 1 (min 2 (extract_value pr f "score").1)
                gamma := 0.3 * (1 - max 0 (min 1 (extract_value pr p "ratio").1)) *
                  max 1 (min 2 (extract_value pr f "score").1) }
            suggested_penalty := max 0 (extract_value pr l "amount").1 *
              (1 + 0.3 * (1 - max 0 (min 1 (extract_value pr p "ratio").1)) *
                max 1 (min 2 (extract_value pr f "score").1))
            base_loss := max 0 (extract_value pr l "amount").1
            adjustments := [] } := by
  simp only [evaluate_judicial_discretion, calculate_liquidated_damages,
    general_contract_branch, judicial_weight, ite_clamp01, ite_clamp12,
    ite_neg_zero_eq_max, w1_of_clamped, add_zero, sub_zero, ite_false_bool]
  rfl

/-- C1: for every rate at most 4× the benchmark rate, the private-lending
check succeeds with risk level Low and `capped_value` equal to the given
rate; for every rate strictly above the limit it fails with InvalidInput
whose details carry risk level Critical, the legal-basis citation, the
limit exactly 4× the benchmark rate, and the provided rate.  No
capped-but-modified value is ever returned. -/
theorem C1_private_lending_cap (rate : ℚ) :
    (rate ≤ 4 * benchmark_lpr →
      check_private_lending_interest rate false =
        .ok { triggered := false
              risk_level := "Low"
              message := "利率在法律保护范围内。"
              capped_value := rate }) ∧
    (rate > 4 * benchmark_lpr →
      check_private_lending_interest rate false =
        .error (.invalidParams "约定利率超过法律保护上限"
          (.redline "Critical"
            "《最高人民法院关于审理民间借贷案件适用法律若干问题的规定》"
            (4 * benchmark_lpr) rate))) := by
  constructor <;> intro h
  · have hn : ¬ rate > benchmark_lpr * 4 := by rw [mul_comm]; exact not_lt.2 h
    simp [check_private_lending_interest, get_latest_lpr, hn, RiskLevel.value]
  · have hy : rate > benchmark_lpr * 4 := by rw [mul_comm]; exact h
    simp [check_private_lending_interest, get_latest_lpr, hy, RiskLevel.value,
      mul_comm]

/-- Witness for C1 at rate 0.10 (inside the 0.138 limit) and rate 0.20
(above it). -/
theorem C1_private_lending_cap_witness :
    check_private_lending_interest 0.1 false =
      .ok { triggered := false
            risk_level := "Low"
            message := "利率在法律保护范围内。"
            capped_value := 0.1 } ∧
    check_private_lending_interest 0.2 false =
      .error (.invalidParams "约定利率超过法律保护上限"
        (.redline "Critical"
          "《最高人民法院关于审理民间借贷案件适用法律若干问题的规定》"
          (4 * benchmark_lpr) 0.2)) :=
  ⟨(C1_private_lending_cap 0.1).1 (by norm_num [benchmark_lpr]),
   (C1_private_lending_cap 0.2).2 (by norm_num [benchmark_lpr])⟩

/-- C4: for every positive `total_months` the labor-contract check returns
the ceiling `(training_cost / total_months) * remaining_months` and never
rejects on the amount itself; for `total_months ≤ 0` it fails with
InvalidInput. -/
theorem C4_labor_ceiling (training_cost : ℚ) (total_months remaining_months : ℤ) :
    (0 < total_months →
      check_labor_contract_limit training_cost total_months remaining_months =
        .ok (training_cost / (total_months : ℚ) * (remaining_months : ℚ))) ∧
    (total_months ≤ 0 →
      check_labor_contract_limit training_cost total_months remaining_months =
        .error (.invalidParams "服务期总月数必须大于0"
          (.totalMonths total_months))) := by
  constructor <;> intro h
  · simp [check_labor_contract_limit, not_le.2 h]
  · simp [check_labor_contract_limit, h]

/-- Witness for C4: training_cost 10000, total_months 60,
remaining_months 36 yields 6000; total_months 0 is rejected. -/
theorem C4_labor_ceiling_witness :
    check_labor_contract_limit 10000 60 36 = .ok 6000 ∧
    check_labor_contract_limit 10000 0 36 =
      .error (.invalidParams "服务期总月数必须大于0" (.totalMonths 0)) := by
  constructor
  · rw [(C4_labor_ceiling 10000 60 36).1 (by norm_num)]
    norm_num
  · exact (C4_labor_ceiling 10000 0 36).2 (by norm_num)

/-- C7: when the rate lookup is made to fail, the provider fails with the
Unavailable kind (`InternalError`) carrying a nonempty diagnostic message,
and the private-lending check propagates that very failure unchanged —
it never converts it into an InvalidInput rejection. -/
theorem C7_unavailable_propagates (rate : ℚ) :
    ∃ msg, msg ≠ "" ∧
      get_latest_lpr true = .error (.internalError msg) ∧
      check_private_lending_interest rate true = .error (.internalError msg) ∧
      ∀ m d, check_private_lending_interest rate true ≠
        .error (.invalidParams m d) := by
  refine ⟨"法律数据库同步失败，已切换至备用静态数据源", by simp, rfl, rfl, ?_⟩
  intro m d
  simp [check_private_lending_interest, get_latest_lpr]

/-- C2: every scenario tag other than `private_lending` and
`labor_contract` — `general_contract`, `judicial_evaluation`, or any
unrecognized tag — takes the general branch, which records the floored
base loss `L = max(0, actual_loss + expectation_loss - mitigation_benefit)`
and returns `L * (1 + gamma)` with `gamma` given by the spec's formula
(0 when no weight is supplied). -/
theorem C2_general_branch_formula (scenario : String)
    (h1 : scenario ≠ "private_lending") (h2 : scenario ≠ "labor_contract")
    (a e m : ℚ) (dw : Option DiscretionaryWeight) (tid : Option String)
    (kw : Kwargs) :
    ∃ r, calculate_liquidated_damages a e m dw scenario tid kw = .ok r ∧
      r.base_loss_L = some (max 0 (a + e - m)) ∧
      r.final_suggestion = max 0 (a + e - m) * (1 + spec_gamma dw) := by
  have hcalc : calculate_liquidated_damages a e m dw scenario tid kw =
      .ok (general_contract_branch a e m dw
        { scenario := scenario
          adjustments := []
          final_suggestion := 0
          causal_trace_id := tid
          base_loss_L := none
          gamma_calculation := none }) := by
    simp [calculate_liquidated_damages, h1, h2]
  refine ⟨_, hcalc, ?_, ?_⟩ <;>
    cases dw with
    | none =>
      simp only [general_contract_branch, ite_neg_zero_eq_max, spec_gamma]
    | some w =>
      simp only [general_contract_branch, ite_neg_zero_eq_max, spec_gamma]

/-- Witness for C2: an unrecognized tag with actual_loss 100,
expectation_loss 50, mitigation_benefit 200 floors L to 0 and yields a
final amount of 0 despite a supplied weight. -/
theorem C2_general_branch_formula_witness :
    ∃ r, calculate_liquidated_damages 100 50 200
        (some { performance_ratio := 0.5
                fault_score := 2
                expectation_interest_included := false
                is_consumer_contract := true })
        "totally_unknown_tag" none {} = .ok r ∧
      r.base_loss_L = some 0 ∧ r.final_suggestion = 0 := by
  obtain ⟨r, hok, hbase, hfin⟩ :=
    C2_general_branch_formula "totally_unknown_tag" (by decide) (by decide)
      100 50 200
      (some { performance_ratio := 0.5
              fault_score := 2
              expectation_interest_included := false
              is_consumer_contract := true }) none {}
  refine ⟨r, hok, ?_, ?_⟩
  · rw [hbase]; norm_num
  · rw [hfin]; norm_num

/-- C3: for a weight with performance_ratio in [0, 1] and fault_score in
[1, 2], the recorded adjustment coefficient equals
`0.3 * (1 - performance_ratio) * fault_score` and lies in [0, 0.6]. -/
theorem C3_gamma_formula_bounds (w : DiscretionaryWeight)
    (h0 : 0 ≤ w.performance_ratio) (h1 : w.performance_ratio ≤ 1)
    (h2 : 1 ≤ w.fault_score) (h3 : w.fault_score ≤ 2)
    (a e m : ℚ) (tid : Option String) (kw : Kwargs) :
    ∃ r g, calculate_liquidated_damages a e m (some w) "general_contract" tid kw
        = .ok r ∧
      r.gamma_calculation = some g ∧
      g.gamma = 0.3 * (1 - w.performance_ratio) * w.fault_score ∧
      0 ≤ g.gamma ∧ g.gamma ≤ 0.6 := by
  have hw1 : ¬ (1 - w.performance_ratio < 0) := by linarith
  refine ⟨_, ⟨1 - w.performance_ratio, w.fault_score,
    0.3 * (1 - w.performance_ratio) * w.fault_score⟩, rfl, ?_, rfl, ?_, ?_⟩
  · simp only [general_contract_branch, if_neg hw1]
  · have hfs : (0 : ℚ) ≤ w.fault_score := by linarith
    have hp : (0 : ℚ) ≤ 1 - w.performance_ratio := by linarith
    positivity
  · nlinarith [mul_nonneg (show (0:ℚ) ≤ 1 - w.performance_ratio by linarith)
      (show (0:ℚ) ≤ w.fault_score by linarith)]

/-- Witness for C3 at performance_ratio 0.5 and fault_score 1.5:
gamma = 0.225, inside [0, 0.6]. -/
theorem C3_gamma_formula_bounds_witness :
    ∃ r g, calculate_liquidated_damages 10000 0 0
        (some { performance_ratio := 0.5
                fault_score := 1.5
                expectation_interest_included := true
                is_consumer_contract := false })
        "general_contract" none {} = .ok r ∧
      r.gamma_calculation = some g ∧
      g.gamma = 0.225 ∧ 0 ≤ g.gamma ∧ g.gamma ≤ 0.6 := by
  obtain ⟨r, g, hok, hg, hgam, hlo, hhi⟩ :=
    C3_gamma_formula_bounds
      { performance_ratio := 0.5
        fault_score := 1.5
        expectation_interest_included := true
        is_consumer_contract := false }
      (by norm_num) (by norm_num) (by norm_num) (by norm_num) 10000 0 0 none {}
  exact ⟨r, g, hok, hg, by rw [hgam]; norm_num, hlo, hhi⟩

/-- Counterexample to C5: a caller-supplied weight with
performance_ratio = -1 and fault_score = 5 reaches the multiplication
step of the direct `calculate_liquidated_damages` call unclamped — the
recorded factors are w1 = 2 (so the performance value used is -1, outside
[0, 1]) and w2 = 5 (outside [1, 2]). -/
theorem C5_counterexample :
    ∃ r g, calculate_liquidated_damages 0 0 0
        (some { performance_ratio := -1
                fault_score := 5
                expectation_interest_included := false
                is_consumer_contract := false })
        "general_contract" none {} = .ok r ∧
      r.gamma_calculation = some g ∧
      g.w2 = 5 ∧ ¬ (1 ≤ g.w2 ∧ g.w2 ≤ 2) ∧
      g.w1 = 2 ∧ ¬ (0 ≤ 1 - g.w1 ∧ 1 - g.w1 ≤ 1) := by
  refine ⟨_, ⟨2, 5, 3⟩, rfl, ?_, rfl, ?_, rfl, ?_⟩
  · norm_num [general_contract_branch]
  · norm_num
  · norm_num

/-- C5 as amended: only the `evaluate_judicial_discretion` flow clamps
performance into [0, 1] and fault into [1, 2] before the multiplication;
the direct `calculate_liquidated_damages` call clamps only
`w1 = 1 - performance_ratio` below at zero and passes `fault_score`
through to the multiplication unclamped. -/
theorem C5_amended_clamping :
    (∀ (l p f : PyVal) (c : Option String) (pr : LegalResourceProvider),
      ∃ rep g, evaluate_judicial_discretion l p f c pr = .ok rep ∧
        rep.formula_components = some g ∧
        0 ≤ rep.performance.value ∧ rep.performance.value ≤ 1 ∧
        1 ≤ rep.fault.value ∧ rep.fault.value ≤ 2 ∧
        g.w1 = 1 - rep.performance.value ∧ g.w2 = rep.fault.value) ∧
    (∀ (a e m : ℚ) (w : DiscretionaryWeight) (tid : Option String) (kw : Kwargs),
      ∃ r g, calculate_liquidated_damages a e m (some w) "general_contract" tid
          kw = .ok r ∧
        r.gamma_calculation = some g ∧
        g.w1 = max 0 (1 - w.performance_ratio) ∧ g.w2 = w.fault_score) := by
  constructor
  · intro l p f c pr
    refine ⟨_, _, evaluate_judicial_discretion_eq l p f c pr, rfl,
      (clamp01_bounds _).1, (clamp01_bounds _).2,
      (clamp12_bounds _).1, (clamp12_bounds _).2, rfl, rfl⟩
  · intro a e m w tid kw
    refine ⟨_, ⟨max 0 (1 - w.performance_ratio), w.fault_score,
      0.3 * max 0 (1 - w.performance_ratio) * w.fault_score⟩, rfl, ?_, rfl, rfl⟩
    simp only [general_contract_branch, ite_neg_zero_eq_max]

/-- Counterexample to C6: in the private-lending scenario a negative rate
passes the cap check (it is below the limit) and is returned as the final
suggestion, which is negative. -/
theorem C6_counterexample :
    ∃ r, calculate_liquidated_damages 0 0 0 none "private_lending" none
        { rate := -0.1 } = .ok r ∧ r.final_suggestion < 0 := by
  have hcheck : check_private_lending_interest (-0.1) false =
      .ok { triggered := false
            risk_level := "Low"
            message := "利率在法律保护范围内。"
            capped_value := -0.1 } := by
    norm_num [check_private_lending_interest, get_latest_lpr, benchmark_lpr,
      RiskLevel.value]
  have hcalc : calculate_liquidated_damages 0 0 0 none "private_lending" none
      { rate := -0.1 } =
      .ok { scenario := "private_lending"
            adjustments := []
            final_suggestion := -0.1
            causal_trace_id := none
            base_loss_L := none
            gamma_calculation := none } := by
    simp [calculate_liquidated_damages, hcheck]
  exact ⟨_, hcalc, by norm_num⟩

/-- C6 as amended: a successful calculation never returns a negative
final suggestion provided the scenario's numeric inputs are nonnegative —
a nonnegative rate in the private-lending branch, nonnegative training
cost and remaining months in the labor branch, and a supplied weight with
nonnegative fault score in the general branch. -/
theorem C6_amended_nonneg (a e m : ℚ) (dw : Option DiscretionaryWeight)
    (scenario : String) (tid : Option String) (kw : Kwargs) (r : CalcResult)
    (hrate : 0 ≤ kw.rate) (htc : 0 ≤ kw.training_cost)
    (hrm : 0 ≤ kw.remaining_months)
    (hfs : ∀ w, dw = some w → 0 ≤ w.fault_score)
    (hok : calculate_liquidated_damages a e m dw scenario tid kw = .ok r) :
    0 ≤ r.final_suggestion := by
  by_cases hs1 : scenario = "private_lending"
  · rw [hs1] at hok
    simp only [calculate_liquidated_damages, if_pos] at hok
    cases hcheck : check_private_lending_interest kw.rate kw.simulate_db_failure
      with
    | error e => rw [hcheck] at hok; cases hok
    | ok c =>
      rw [hcheck] at hok
      simp only [Except.ok.injEq] at hok
      subst hok
      exact hrate
  · by_cases hs2 : scenario = "labor_contract"
    · rw [hs2] at hok
      simp [calculate_liquidated_damages] at hok
      cases hcheck : check_labor_contract_limit kw.training_cost kw.total_months
        kw.remaining_months with
      | error e => rw [hcheck] at hok; cases hok
      | ok limit =>
        rw [hcheck] at hok
        simp only [Except.ok.injEq] at hok
        subst hok
        by_cases htm : kw.total_months ≤ 0
        · rw [check_labor_contract_limit, if_pos htm] at hcheck
          cases hcheck
        · rw [check_labor_contract_limit, if_neg htm] at hcheck
          simp only [Except.ok.injEq] at hcheck
          push_neg at htm
          have h2 : (0 : ℚ) < (kw.total_months : ℚ) := by exact_mod_cast htm
          have h3 : (0 : ℚ) ≤ (kw.remaining_months : ℚ) := by exact_mod_cast hrm
          rw [← hcheck]
          exact mul_nonneg (div_nonneg htc h2.le) h3
    · simp only [calculate_liquidated_damages, if_neg hs1, if_neg hs2,
        Except.ok.injEq] at hok
      subst hok
      cases dw with
      | none =>
        simp only [general_contract_branch, ite_neg_zero_eq_max]
        have := le_max_left (0 : ℚ) (a + e - m)
        norm_num
      | some w =>
        have hw2 := hfs w rfl
        simp only [general_contract_branch, ite_neg_zero_eq_max]
        have hg : (0 : ℚ) ≤ 0.3 * max 0 (1 - w.performance_ratio) *
            w.fault_score :=
          mul_nonneg (mul_nonneg (by norm_num) (le_max_left 0 _)) hw2
        exact mul_nonneg (le_max_left 0 _) (by linarith)

/-- Witness for C6 as amended: the general branch on actual_loss 1 with no
weight returns 1, which is nonnegative. -/
theorem C6_amended_nonneg_witness :
    ∃ r, calculate_liquidated_damages 1 0 0 none "general_contract" none {}
        = .ok r ∧ 0 ≤ r.final_suggestion := by
  have hok : calculate_liquidated_damages 1 0 0 none "general_contract" none {}
      = .ok { scenario := "general_contract"
              adjustments := []
              final_suggestion := 1
              causal_trace_id := none
              base_loss_L := some 1
              gamma_calculation := none } := by
    simp [calculate_liquidated_damages, general_contract_branch]
  exact ⟨_, hok, C6_amended_nonneg 1 0 0 none "general_contract" none {} _
    (by norm_num) (by norm_num) (by norm_num)
    (fun w h => Option.noConfusion h) hok⟩

/-- C8: on numeric inputs `evaluate_judicial_discretion` never fails — it
clamps performance into [0, 1] and fault into [1, 2] before use, and any
performance at or above 1 makes the resulting gamma 0. -/
theorem C8_never_fails_clamps (loss performance fault : ℚ) (c : Option String)
    (pr : LegalResourceProvider) :
    ∃ rep g, evaluate_judicial_discretion (.num loss) (.num performance)
        (.num fault) c pr = .ok rep ∧
      rep.performance.value = max 0 (min 1 performance) ∧
      rep.fault.value = max 1 (min 2 fault) ∧
      rep.formula_components = some g ∧
      (1 ≤ performance → g.gamma = 0) := by
  refine ⟨_, _, evaluate_judicial_discretion_eq _ _ _ c pr, rfl, rfl, rfl, ?_⟩
  intro hp
  show (0.3 : ℚ) * (1 - max 0 (min 1 performance)) * max 1 (min 2 fault) = 0
  rw [min_eq_left hp, max_eq_right (by norm_num : (0 : ℚ) ≤ 1)]
  ring

/-- Witness for C8: performance 1.5 clamps to 1, fault 0.5 clamps to 1,
and the resulting gamma is 0. -/
theorem C8_never_fails_clamps_witness :
    ∃ rep g, evaluate_judicial_discretion (.num 10000) (.num 1.5) (.num 0.5)
        none ⟨[]⟩ = .ok rep ∧
      rep.performance.value = 1 ∧ rep.fault.value = 1 ∧
      rep.formula_components = some g ∧ g.gamma = 0 := by
  obtain ⟨rep, g, hok, hperf, hfault, hg, hgam⟩ :=
    C8_never_fails_clamps 10000 1.5 0.5 none ⟨[]⟩
  refine ⟨rep, g, hok, ?_, ?_, hg, hgam (by norm_num)⟩
  · rw [hperf]; norm_num [min_def, max_def]
  · rw [hfault]; norm_num [min_def, max_def]

/-- C9: a PID-scheme loss reference that does not resolve to a stored
record degrades to the absent marker (after a warning log), no error is
raised, and the report records a loss value of 0 with no originating
reference. -/
theorem C9_unresolved_pid_degrades (token : String) (p f : PyVal)
    (c : Option String) (pr : LegalResourceProvider)
    (hpid : strStarts token "legal://pid/" = true)
    (habs : lookupHandle pr.pids (strDrop token 12) = none) :
    resolve_pid_or_value pr (.str token) = .pynone ∧
    ∃ rep, evaluate_judicial_discretion (.str token) p f c pr = .ok rep ∧
      rep.loss.value = 0 ∧ rep.loss.source_pid = none := by
  have hres : resolve_pid_or_value pr (.str token) = .pynone := by
    simp [resolve_pid_or_value, hpid, get_resource_by_pid, habs, pyTruthy]
  have hext : extract_value pr (.str token) "amount" = (0, none) := by
    simp [extract_value, hres]
  refine ⟨hres, _, evaluate_judicial_discretion_eq _ _ _ c pr, ?_, ?_⟩
  · show (extract_value pr (.str token) "amount").1 = 0
    rw [hext]
  · show (extract_value pr (.str token) "amount").2 = none
    rw [hext]

/-- Witness for C9: the token `legal://pid/missing` against an empty
store. -/
theorem C9_unresolved_pid_degrades_witness :
    resolve_pid_or_value ⟨[]⟩ (.str "legal://pid/missing") = .pynone ∧
    ∃ rep, evaluate_judicial_discretion (.str "legal://pid/missing")
        (.num 0.5) (.num 1.5) none ⟨[]⟩ = .ok rep ∧
      rep.loss.value = 0 ∧ rep.loss.source_pid = none :=
  C9_unresolved_pid_degrades "legal://pid/missing" (.num 0.5) (.num 1.5) none
    ⟨[]⟩ (by decide) rfl

/-- C10: the weight constructed by `evaluate_judicial_discretion` always
has `is_consumer_contract = false` and
`expectation_interest_included = true`, so the report's adjustments list
is empty — no consumer-protection advisory can appear via this entry
point. -/
theorem C10_no_consumer_advisory (l p f : PyVal) (c : Option String)
    (pr : LegalResourceProvider) :
    (∀ pv fv, (judicial_weight pv fv).is_consumer_contract = false ∧
      (judicial_weight pv fv).expectation_interest_included = true) ∧
    ∃ rep, evaluate_judicial_discretion l p f c pr = .ok rep ∧
      rep.adjustments = [] :=
  ⟨fun _ _ => ⟨rfl, rfl⟩, _, evaluate_judicial_discretion_eq l p f c pr, rfl⟩

end MCPLegal
